import Mathlib

/-!
Verification of the mini_rdbms storage-and-query core (src/src/database.py,
src/src/parser.py, src/src/executor.py) against its specification.

The persisted state of one table is the table's JSON document; every engine
operation is a read-file / modify / write-file cycle, so each operation is
modelled as a function from the loaded document (`Table`) to the document it
leaves on disk, together with the status string it returns.  Python scalar
values are modelled by `Value`; Python's `str()`, `==` and JSON key
stringification are modelled by `pyStr`, `pyEq` and `jsonKeyStr`.  Floats are
modelled as decimal values m / 10^e, which matches Python's repr on every
decimal literal the engine handles.
-/

/-- A Python scalar value as stored in a table row: `None`, `int`, `float`
(as a decimal m / 10^e), `str` or `bool`. -/
inductive Value where
  | null : Value
  | int (n : Int) : Value
  | float (m : Int) (e : Nat) : Value
  | str (s : String) : Value
  | bool (b : Bool) : Value
deriving DecidableEq, Repr, Inhabited

/-- Normalize a decimal float: strip factors of 10 shared by mantissa and
scale, so that (260, 1) and (26, 0) denote the same Python float 26.0. -/
def normFloat : Int → Nat → Int × Nat
  | m, 0 => (m, 0)
  | m, e + 1 => if m % 10 = 0 then normFloat (m / 10) e else (m, e + 1)

/-- Zero-pad a digit string on the left to width `w`. -/
def padZeros (s : String) (w : Nat) : String :=
  String.mk (List.replicate (w - s.length) '0') ++ s

/-- Python's `repr`/`str` of a float holding a decimal value: `26.0`,
`3.14`, `-0.5`, `0.05`. -/
def floatRepr (m : Int) (e : Nat) : String :=
  let p := normFloat m e
  let sign := if p.1 < 0 then "-" else ""
  let a := p.1.natAbs
  if p.2 = 0 then sign ++ toString a ++ ".0"
  else sign ++ toString (a / 10 ^ p.2) ++ "." ++ padZeros (toString (a % 10 ^ p.2)) p.2

/-- Python `str()` of a stored value: `str(None) = "None"`,
`str(True) = "True"`, `str(26.0) = "26.0"`, a string is itself. -/
def pyStr : Value → String
  | .null => "None"
  | .int n => toString n
  | .float m e => floatRepr m e
  | .str s => s
  | .bool b => if b then "True" else "False"

/-- The key `json.dump` writes for this value when it is a dict key:
`True` becomes `"true"`, `None` becomes `"null"`, numbers use their repr. -/
def jsonKeyStr : Value → String
  | .null => "null"
  | .int n => toString n
  | .float m e => floatRepr m e
  | .str s => s
  | .bool b => if b then "true" else "false"

/-- The numeric value of a Python number (`bool` counts as 0/1), as a
decimal mantissa/scale pair; `none` for non-numbers. -/
def numVal : Value → Option (Int × Nat)
  | .int n => some (n, 0)
  | .bool b => some (if b then 1 else 0, 0)
  | .float m e => some (m, e)
  | _ => none

/-- Python `==` on stored values: numbers (including bools) compare by
numeric value, strings by content, `None` only to `None`; a number never
equals a string. -/
def pyEq (a b : Value) : Bool :=
  match numVal a, numVal b with
  | some (m1, e1), some (m2, e2) => m1 * 10 ^ e2 == m2 * 10 ^ e1
  | _, _ =>
    match a, b with
    | .str s1, .str s2 => s1 == s2
    | .null, .null => true
    | _, _ => false


/-! ## Character-level string operations

The embedding evaluates inside the kernel (`rfl`/`decide`), so the string
operations the source uses are implemented here by structural recursion
over the character list; each mirrors the Python operation named in its
doc comment. -/

/-- `c in s` for a character. -/
def strContains (s : String) (c : Char) : Bool := s.data.contains c

/-- Whether `ps` is a prefix of `cs`. -/
def charsPrefixOf : List Char → List Char → Bool
  | [], _ => true
  | _ :: _, [] => false
  | p :: ps, c :: cs => p == c && charsPrefixOf ps cs

/-- Python `s.startswith(pre)`. -/
def strStartsWith (s pre : String) : Bool := charsPrefixOf pre.data s.data

/-- Python `s.endswith(suf)`. -/
def strEndsWith (s suf : String) : Bool := charsPrefixOf suf.data.reverse s.data.reverse

/-- Python `s.upper()` (ASCII). -/
def strToUpper (s : String) : String := String.mk (s.data.map Char.toUpper)

/-- Python `s.lower()` (ASCII). -/
def strToLower (s : String) : String := String.mk (s.data.map Char.toLower)

/-- Python `s.strip()`: drop leading and trailing whitespace. -/
def pyStrip (s : String) : String :=
  String.mk (((s.data.dropWhile Char.isWhitespace).reverse.dropWhile Char.isWhitespace).reverse)

/-- All pieces of `cs` split at every character equal to `c`. -/
def splitOnCharAux (c : Char) : List Char → List Char → List (List Char)
  | [], acc => [acc.reverse]
  | x :: xs, acc =>
    if x == c then acc.reverse :: splitOnCharAux c xs []
    else splitOnCharAux c xs (x :: acc)

/-- Python `s.split(c)` for a one-character separator. -/
def strSplitOnChar (s : String) (c : Char) : List String :=
  (splitOnCharAux c s.data []).map String.mk

/-- All pieces of `cs` split at every character satisfying `p` (empty
pieces included). -/
def splitByPredAux (p : Char → Bool) : List Char → List Char → List (List Char)
  | [], acc => [acc.reverse]
  | x :: xs, acc =>
    if p x then acc.reverse :: splitByPredAux p xs []
    else splitByPredAux p xs (x :: acc)

/-- The digit value of a digit run; `none` on a non-digit. -/
def digitsToNatAux : List Char → Nat → Option Nat
  | [], acc => some acc
  | c :: cs, acc =>
    if c.isDigit then digitsToNatAux cs (acc * 10 + (c.toNat - 48)) else none

/-- `String.toNat?`: the value of a nonempty all-digit string. -/
def strToNatQ (s : String) : Option Nat :=
  if s.data = [] then none else digitsToNatAux s.data 0


/-- Python `int(s)` on a string: strip whitespace, optional sign, decimal
digits (the engine never feeds the underscore or non-ASCII digit forms). -/
def parseIntString (s : String) : Option Int :=
  let t := pyStrip s
  if strStartsWith t "-" then (strToNatQ (t.drop 1)).map (fun n => -(n : Int))
  else if strStartsWith t "+" then (strToNatQ (t.drop 1)).map (fun n => (n : Int))
  else (strToNatQ t).map (fun n => (n : Int))

/-- Python `float(s)` on a string, restricted to plain decimal forms
`d*`, `d*.d*` with optional sign (the engine never feeds exponent,
infinity or nan forms). -/
def parseFloatString (s : String) : Option (Int × Nat) :=
  let t := pyStrip s
  let (sign, body) : Int × String :=
    if strStartsWith t "-" then (-1, t.drop 1)
    else if strStartsWith t "+" then (1, t.drop 1)
    else (1, t)
  match strSplitOnChar body '.' with
  | [ip] => (strToNatQ ip).map (fun n => (sign * n, 0))
  | [ip, fp] =>
    let digits := ip ++ fp
    if digits ≠ "" && digits.data.all Char.isDigit then
      (strToNatQ digits).map (fun n => (sign * n, fp.length))
    else none
  | _ => none

/-- Python `int(value)`: ints unchanged, bools to 0/1, floats truncated
toward zero, strings parsed; `None` and unparsable strings fail. -/
def pyInt : Value → Option Int
  | .int n => some n
  | .bool b => some (if b then 1 else 0)
  | .float m e => some (Int.tdiv m (10 ^ e))
  | .str s => parseIntString s
  | .null => none

/-- Python `float(value)`: floats unchanged, ints and bools widened,
strings parsed; `None` and unparsable strings fail. -/
def pyFloat : Value → Option (Int × Nat)
  | .int n => some (n, 0)
  | .bool b => some (if b then 1 else 0, 0)
  | .float m e => some (m, e)
  | .str s => parseFloatString s
  | .null => none

/-- Python `round(x, s)` on a decimal float: banker's rounding (ties to
even) at scale `s`; a negative `s` rounds into the integer digits.  (Ties
are decided on the decimal value; artifacts of the binary representation
of a Python float are outside this model, and no claim depends on them.) -/
def pyRound (m : Int) (e : Nat) (s : Int) : Int × Nat :=
  if (e : Int) ≤ s then (m, e)
  else
    let k := ((e : Int) - s).toNat
    let a := m.natAbs
    let d := 10 ^ k
    let q := a / d
    let r := a % d
    let h := d / 2
    let q := if r > h then q + 1 else if r < h then q else if q % 2 = 0 then q else q + 1
    let q : Int := if m < 0 then -(q : Int) else (q : Int)
    if 0 ≤ s then (q, s.toNat) else (q * 10 ^ (-s).toNat, 0)

/-- Python `s[:k]`: the first `k` characters for `k ≥ 0`, all but the last
`-k` characters for `k < 0`. -/
def pySliceTo (s : String) (k : Int) : String :=
  if 0 ≤ k then s.take k.toNat else s.dropRight (-k).toNat

/-- The single-quote character (ASCII 39). -/
def squote : Char := "'".data.headD ' '

/-- The double-quote character (ASCII 34). -/
def dquote : Char := "\"".data.headD ' '

/-- The quote stripping done on WHERE-clause values and literals:
`val[1:-1]` when the value both starts and ends with the same quote kind. -/
def stripQuotes (val : String) : String :=
  if (strStartsWith val "'" && strEndsWith val "'") ||
      (strStartsWith val "\"" && strEndsWith val "\"") then
    (val.drop 1).dropRight 1
  else val

/-- The WHERE-clause parse `database.py` repeats at lines 154-163, 387-398,
479-488 and 557-566: require an `=`, split on the first one, strip both
sides, strip quotes from the value; `none` when there is no `=`. -/
def parseWhereEq (wc : String) : Option (String × String) :=
  if strContains wc '=' then
    match strSplitOnChar wc '=' with
    | [] => none
    | p :: rest =>
      some (pyStrip p, stripQuotes (pyStrip (String.intercalate "=" rest)))
  else none

/-- One column of a table schema, as `parser.py` builds it and
`database.py` stores it: name, type tag (for example `VARCHAR(3)`), type
parameters, constraint tags. -/
structure ColumnDef where
  name : String
  type : String
  type_params : List Int
  constraints : List String
deriving DecidableEq, Repr, Inhabited

/-- One hash index as persisted: JSON object keys are strings, so after a
save/load cycle the value-to-row-positions mapping is keyed by the
`jsonKeyStr` of each value. -/
structure IndexInfo where
  data : List (String × List Nat)
  column_index : Nat
deriving DecidableEq, Repr, Inhabited

/-- The persisted JSON document of one table (`database.py` lines 48-55):
name, column-name list, column definitions, row data, indexes.  Tables this
engine creates always carry `column_definitions`, so the legacy
columns-only fallback branches of `insert`/`update`/`delete` are not
reachable and not modelled. -/
structure Table where
  name : String
  columns : List String
  column_definitions : List ColumnDef
  data : List (List Value)
  indexes : List (String × IndexInfo)
deriving DecidableEq, Repr, Inhabited

/-- First-match association lookup (a loaded JSON object has unique keys). -/
def lookupAssoc {α : Type} (l : List (String × α)) (k : String) : Option α :=
  match l.find? (fun kv => kv.1 = k) with
  | some kv => some kv.2
  | none => none

/-- Python dict assignment `d[k] = v`: replace in place when the key
exists, else append (insertion order preserved). -/
def assocSet {α : Type} (l : List (String × α)) (k : String) (v : α) : List (String × α) :=
  match l with
  | [] => [(k, v)]
  | (k', v') :: rest => if k' = k then (k, v) :: rest else (k', v') :: assocSet rest k v

/-- The keys of an association list in order of first occurrence, without
repeats. -/
def firstOccurrences (seen : List String) : List String → List String
  | [] => []
  | k :: rest =>
    if k ∈ seen then firstOccurrences seen rest
    else k :: firstOccurrences (k :: seen) rest

/-- The last value written for key `k` (JSON repeated keys: last wins). -/
def lastAssocValue {α : Type} (l : List (String × α)) (k : String) (dflt : α) : α :=
  l.foldl (fun acc kv => if kv.1 = k then kv.2 else acc) dflt

/-- What `json.load` yields for a written object whose keys may repeat
(a repeated key keeps its first position and its last value).  Keys of a
loaded object are unique, so on those this is the identity. -/
def jsonLoadObject {α : Type} [Inhabited α] (l : List (String × α)) : List (String × α) :=
  (firstOccurrences [] (l.map Prod.fst)).map (fun k => (k, lastAssocValue l k default))

/-- Python dict `{name: i for i, name in enumerate(names)}`: on duplicate
names the later index wins, kept at the first position. -/
def columnIndicesOfNames (names : List String) : List (String × Nat) :=
  names.enum.foldl (fun acc p => assocSet acc p.2 p.1) []

/-- The first-match column resolution loop used by the scan path and by
`create_index` (`for i, col_def in enumerate(...): if name == ...: break`). -/
def findColIndex (defs : List ColumnDef) (colName : String) : Option Nat :=
  match defs.enum.find? (fun p => p.2.name = colName) with
  | some p => some p.1
  | none => none

/-! ## Value & type model: `Database._validate_value_type` -/

/-- `database.py` lines 179-252, `_validate_value_type`: `None` passes every
type; INT/INTEGER via `int()`; VARCHAR stringifies and silently truncates
to the declared length; DECIMAL via `float()` plus `round` at the declared
scale; FLOAT/REAL via `float()`; BOOLEAN from bools, token strings and
numbers; DATE/DATETIME and the TEXT default via `str()`.  Python returns
an `(value_or_error, bool)` pair; `.ok`/`.error` stands for
`(value, True)`/`(message, False)`. -/
def validateValueType (value : Value) (colType : String) (typeParams : List Int) :
    Except String Value :=
  match value with
  | .null => .ok .null
  | _ =>
    let ct := strToUpper colType
    if ct = "INT" || ct = "INTEGER" then
      match pyInt value with
      | some n => .ok (.int n)
      | none => .error ("Error: Value '" ++ pyStr value ++ "' cannot be converted to INT")
    else if strStartsWith ct "VARCHAR" then
      let v := match value with | .str s => s | _ => pyStr value
      match typeParams with
      | maxLength :: _ =>
        if (v.length : Int) > maxLength then .ok (.str (pySliceTo v maxLength))
        else .ok (.str v)
      | [] => .ok (.str v)
    else if strStartsWith ct "DECIMAL" then
      match pyFloat value with
      | some fv =>
        match typeParams with
        | [_precision, scale] =>
          let r := pyRound fv.1 fv.2 scale
          .ok (.float r.1 r.2)
        | _ => .ok (.float fv.1 fv.2)
      | none => .error ("Error: Value '" ++ pyStr value ++ "' cannot be converted to DECIMAL")
    else if ct = "FLOAT" || ct = "REAL" then
      match pyFloat value with
      | some fv => .ok (.float fv.1 fv.2)
      | none => .error ("Error: Value '" ++ pyStr value ++ "' cannot be converted to FLOAT")
    else if ct = "BOOLEAN" || ct = "BOOL" then
      match value with
      | .bool b => .ok (.bool b)
      | .str s =>
        let lowerVal := strToLower s
        if lowerVal = "true" || lowerVal = "1" || lowerVal = "yes" || lowerVal = "t" then
          .ok (.bool true)
        else if lowerVal = "false" || lowerVal = "0" || lowerVal = "no" || lowerVal = "f" then
          .ok (.bool false)
        else .error ("Error: Value '" ++ pyStr value ++ "' cannot be converted to BOOLEAN")
      | .int n => .ok (.bool (n ≠ 0))
      | .float m _ => .ok (.bool (m ≠ 0))
      | _ => .error ("Error: Value '" ++ pyStr value ++ "' cannot be converted to BOOLEAN")
    else if ct = "DATE" || ct = "DATETIME" then
      .ok (.str (pyStr value))
    else
      .ok (.str (pyStr value))

/-- The insert-side validation loop (`insert` lines 313-325): validate each
value against its column in order, stopping at the first failure. -/
def validateRow : List Value → List ColumnDef → Except String (List Value)
  | v :: vs, cd :: cds =>
    match validateValueType v cd.type cd.type_params with
    | .error msg => .error msg
    | .ok tv =>
      match validateRow vs cds with
      | .ok tvs => .ok (tv :: tvs)
      | .error e => .error e
  | _, _ => .ok []

/-! ## Constraint checker: `Database._check_constraints` -/

/-- Whether another row (excluding `excludeRowIndex`) holds a value equal
(Python `==`) to `value` at column `i` (`_check_constraints` lines 269-275). -/
def hasDuplicate (rows : List (List Value)) (i : Nat) (value : Value)
    (excludeRowIndex : Option Nat) : Bool :=
  rows.enum.any (fun p =>
    (match excludeRowIndex with
     | some e => p.1 != e
     | none => true) && pyEq (p.2.getD i .null) value)

/-- The per-column constraint loop of `_check_constraints`: NOT NULL first,
then UNIQUE / PRIMARY KEY against the current rows; first violation wins. -/
def checkConstraintsLoop (rows : List (List Value)) (rowValues : List Value)
    (excludeRowIndex : Option Nat) : List (Nat × ColumnDef) → Option String
  | [] => none
  | (i, cd) :: rest =>
    let value := rowValues.getD i .null
    if "NOT NULL" ∈ cd.constraints ∧ value = .null then
      some ("Error: Column '" ++ cd.name ++ "' cannot be NULL")
    else if "UNIQUE" ∈ cd.constraints ∨ "PRIMARY KEY" ∈ cd.constraints then
      if hasDuplicate rows i value excludeRowIndex then
        some ("Error: Duplicate value '" ++ pyStr value ++ "' for unique column '" ++ cd.name ++ "'")
      else checkConstraintsLoop rows rowValues excludeRowIndex rest
    else checkConstraintsLoop rows rowValues excludeRowIndex rest

/-- `database.py` lines 254-277, `_check_constraints`. -/
def checkConstraints (table : Table) (rowValues : List Value)
    (columnDefs : List ColumnDef) (excludeRowIndex : Option Nat) : Option String :=
  checkConstraintsLoop table.data rowValues excludeRowIndex columnDefs.enum

/-! ## Index building and maintenance -/

/-- Append position `i` to the group of the first key Python-equal to `v`,
else open a new group at the end (Python dict insertion semantics, the
first-inserted key object is the one kept). -/
def addToGroups (groups : List (Value × List Nat)) (v : Value) (i : Nat) :
    List (Value × List Nat) :=
  match groups with
  | [] => [(v, [i])]
  | (k, ps) :: rest =>
    if pyEq k v then (k, ps ++ [i]) :: rest
    else (k, ps) :: addToGroups rest v i

/-- The `_create_index` scan (lines 100-106): group current row positions
by the value at `colIdx`. -/
def buildIndexGroups (rows : List (List Value)) (colIdx : Nat) : List (Value × List Nat) :=
  rows.enum.foldl (fun groups p => addToGroups groups (p.2.getD colIdx .null) p.1) []

/-- The net effect of `_create_index(table, col, column_index)` on the
stored file: rebuild the value-to-positions mapping from the current rows
and save; the `json.dump`/`json.load` cycle stringifies the dict keys. -/
def createIndexAt (file : Table) (columnName : String) (columnIndex : Nat) : Table :=
  let indexData :=
    jsonLoadObject ((buildIndexGroups file.data columnIndex).map (fun g => (jsonKeyStr g.1, g.2)))
  { file with indexes := assocSet file.indexes columnName ⟨indexData, columnIndex⟩ }

/-- Net effect of `_update_index(..., "insert", value, row_index)` on the
stored file (lines 127-130): the loaded index keys are JSON strings, so the
typed `value not in index["data"]` test only matches when the value is
itself that string; otherwise a new key is opened, stringified at the save. -/
def updateIndexOnInsert (file : Table) (columnName : String) (value : Value)
    (rowIndex : Nat) : Table :=
  match lookupAssoc file.indexes columnName with
  | none => file
  | some idx =>
    let keyHit := fun (k : String) => match value with | .str s => k = s | _ => False
    let d :=
      if idx.data.any (fun kv => keyHit kv.1) then
        idx.data.map (fun kv => if keyHit kv.1 then (kv.1, kv.2 ++ [rowIndex]) else kv)
      else idx.data ++ [(jsonKeyStr value, [rowIndex])]
    { file with indexes := assocSet file.indexes columnName ⟨jsonLoadObject d, idx.column_index⟩ }

/-- Net effect of `_update_index(..., "update", ...)` on the stored file
(lines 132-137): rebuild the whole index for that column via
`_create_index`. -/
def updateIndexOnUpdate (file : Table) (columnName : String) : Table :=
  match lookupAssoc file.indexes columnName with
  | none => file
  | some idx => createIndexAt file columnName idx.column_index

/-- Net effect of `_update_index(..., "delete", value, row_index)` on the
stored file (lines 139-145): remove `row_index` from the value's position
list and drop the key when its list empties; the same string-keyed
membership note as for insert applies. -/
def updateIndexOnDelete (file : Table) (columnName : String) (value : Value)
    (rowIndex : Nat) : Table :=
  match lookupAssoc file.indexes columnName with
  | none => file
  | some idx =>
    let keyHit := fun (k : String) => match value with | .str s => k = s | _ => False
    let d :=
      if idx.data.any (fun kv => keyHit kv.1) then
        (idx.data.map (fun kv =>
          if keyHit kv.1 then (kv.1, kv.2.erase rowIndex) else kv)).filter
          (fun kv => !(keyHit kv.1 && kv.2.isEmpty))
      else idx.data
    { file with indexes := assocSet file.indexes columnName ⟨jsonLoadObject d, idx.column_index⟩ }

/-- `_create_indexes_for_table` (lines 65-78): build an index for every
PRIMARY KEY / UNIQUE column, in column order. -/
def createIndexesForTable (table : Table) (columnDefs : List ColumnDef) : Table :=
  columnDefs.enum.foldl
    (fun t p =>
      if "PRIMARY KEY" ∈ p.2.constraints ∨ "UNIQUE" ∈ p.2.constraints then
        createIndexAt t p.2.name p.1
      else t)
    table

/-- `Database.create_table` (lines 18-63) for the typed column form, as a
state: the fresh document plus the PRIMARY KEY / UNIQUE indexes.  The
table-name validity and already-exists checks concern the catalog, not the
stored document, and are not modelled. -/
def Database.create_table (tableName : String) (columns : List ColumnDef) : Table :=
  let table : Table :=
    { name := tableName
      columns := columns.map (·.name)
      column_definitions := columns
      data := []
      indexes := [] }
  createIndexesForTable table columns

/-- `Database.create_index` (lines 704-737): resolve the column by the
first-match loop, then rebuild its index from the current rows. -/
def Database.create_index (file : Table) (columnName : String) : String × Table :=
  match findColIndex file.column_definitions columnName with
  | none =>
    ("Error: Column '" ++ columnName ++ "' doesn't exist in table '" ++ file.name ++ "'", file)
  | some i =>
    ("Index created on '" ++ file.name ++ "." ++ columnName ++ "'", createIndexAt file columnName i)

/-! ## SELECT paths: `select_all`, `_use_index_for_where`,
`_select_with_where_scan`, `select_with_where` -/

/-- `Database.select_all` (lines 346-356): the current rows. -/
def Database.select_all (file : Table) : List (List Value) :=
  file.data

/-- `Database._use_index_for_where` (lines 152-177): parse the predicate,
return the indexed positions when the column has an index (the stored keys
are already strings, so `str(stored_val) == str(val)` is plain string
equality), the empty list when the value has no key, `none` when the
clause or index is unusable. -/
def useIndexForWhere (file : Table) (whereClause : String) : Option (List Nat) :=
  match parseWhereEq whereClause with
  | none => none
  | some cv =>
    match lookupAssoc file.indexes cv.1 with
    | none => none
    | some idx =>
      match idx.data.find? (fun kv => kv.1 = cv.2) with
      | some kv => some kv.2
      | none => some []

/-- The row test `str(row[col_idx]) == str(val)` that the scan select, the
update WHERE check, the delete filter and the join WHERE filter all apply
(database.py lines 415, 493, 587; executor.py line 298): the stored
value's `str()` must equal the unquoted predicate text. -/
def rowMatchesVal (colIdx : Nat) (val : String) (row : List Value) : Bool :=
  pyStr (row.getD colIdx .null) == val

/-- `Database._select_with_where_scan` (lines 385-418): resolve the column
by the first-match loop; an unknown column returns every row; otherwise
keep the rows whose `str()` at that column equals the unquoted value. -/
def selectWithWhereScan (table : Table) (whereClause : String) : List (List Value) :=
  match parseWhereEq whereClause with
  | none => table.data
  | some cv =>
    match findColIndex table.column_definitions cv.1 with
    | none => table.data
    | some colIndex =>
      table.data.filter (rowMatchesVal colIndex cv.2)

/-- `Database.select_with_where` (lines 358-383): no (or empty) clause
returns every row; an index hit materializes the in-range positions; else
fall back to the full scan. -/
def Database.select_with_where (file : Table) (whereClause : Option String) :
    List (List Value) :=
  match whereClause with
  | none => file.data
  | some wc =>
    if wc = "" then file.data
    else
      match useIndexForWhere file wc with
      | some indexedRows =>
        indexedRows.filterMap (fun i =>
          if i < file.data.length then some (file.data.getD i []) else none)
      | none => selectWithWhereScan file wc

/-! ## INSERT: `Database.insert` -/

/-- Whether a column carries PRIMARY KEY or UNIQUE (the indexed columns). -/
def isPkOrUnique (cd : ColumnDef) : Bool :=
  decide ("PRIMARY KEY" ∈ cd.constraints) || decide ("UNIQUE" ∈ cd.constraints)

/-- `Database.insert` (lines 279-344).  The returned pair is the status
string and the file the call leaves on disk.  On the success path the code
first lets `_update_index` rewrite the stored file per indexed column, and
then dumps its own in-memory table — loaded before those rewrites — over
them, so the persisted indexes are the pre-insert ones
(`fileAfterIndexWrites` is computed and then overwritten by the final
dump, exactly as in the source). -/
def Database.insert (file : Table) (values : List Value) : String × Table :=
  let table := file
  let columnDefs := table.column_definitions
  let expectedColumns := columnDefs.length
  let receivedValues := values.length
  if receivedValues ≠ expectedColumns then
    ("Error: Table '" ++ table.name ++ "' has " ++ toString expectedColumns ++
      " columns (" ++ String.intercalate ", " (columnDefs.map (·.name)) ++ "), but " ++
      toString receivedValues ++ " values were provided.", file)
  else
    match validateRow values columnDefs with
    | .error msg => (msg, file)
    | .ok typedValues =>
      match checkConstraints table typedValues columnDefs none with
      | some err => (err, file)
      | none =>
        let newRowIndex := table.data.length
        let table := { table with data := table.data ++ [typedValues] }
        let fileAfterIndexWrites :=
          columnDefs.enum.foldl
            (fun fs p =>
              if isPkOrUnique p.2 then
                updateIndexOnInsert fs p.2.name (typedValues.getD p.1 .null) newRowIndex
              else fs)
            file
        let _ := fileAfterIndexWrites
        ("Inserted into '" ++ file.name ++ "'", table)

/-! ## UPDATE: `Database.update` -/

/-- The SET-clause validation loop of `update` (lines 450-468): resolve
each updated column against the name-to-index dict and validate its new
value, first failure wins; collects `(col_idx, col_def, validated)`. -/
def buildUpdateInfo (tableName : String) (columnDefs : List ColumnDef)
    (columnIndices : List (String × Nat)) :
    List (String × Value) → Except String (List (Nat × ColumnDef × Value))
  | [] => .ok []
  | (col, newVal) :: rest =>
    match lookupAssoc columnIndices col with
    | none => .error ("Error: Column '" ++ col ++ "' doesn't exist in table '" ++ tableName ++ "'")
    | some colIdx =>
      let colDef := columnDefs.getD colIdx default
      match validateValueType newVal colDef.type colDef.type_params with
      | .error msg => .error msg
      | .ok v =>
        match buildUpdateInfo tableName columnDefs columnIndices rest with
        | .ok infos => .ok ((colIdx, colDef, v) :: infos)
        | .error e => .error e

/-- The per-row WHERE evaluation of `update` (lines 474-498): no (or
empty) clause matches every row; a clause without `=` or naming an unknown
column is an error; otherwise the row matches when its `str()` at the
column equals the unquoted value. -/
def updateWhereTest (columnIndices : List (String × Nat)) (whereClause : Option String)
    (row : List Value) : Except String Bool :=
  match whereClause with
  | none => .ok true
  | some wc =>
    if wc = "" then .ok true
    else
      match parseWhereEq wc with
      | none => .error "Error: Invalid WHERE clause. Use: column=value"
      | some cv =>
        match lookupAssoc columnIndices cv.1 with
        | some i => .ok (rowMatchesVal i cv.2 row)
        | none => .error ("Error: Column '" ++ cv.1 ++ "' in WHERE clause doesn't exist")

/-- Apply the SET values to a row copy and let `_update_index` rewrite the
stored file for each PRIMARY KEY / UNIQUE updated column (lines 500-513). -/
def applyUpdatesStep (row : List Value) (fileState : Table)
    (updateInfo : List (Nat × ColumnDef × Value)) : List Value × Table :=
  updateInfo.foldl
    (fun acc info =>
      (acc.1.set info.1 info.2.2,
       if isPkOrUnique info.2.1 then updateIndexOnUpdate acc.2 info.2.1.name else acc.2))
    (row, fileState)

/-- The row loop of `update` (lines 470-531).  `memData` is the in-memory
`table["data"]` (earlier rows already replaced), `fileState` the stored
file as `_update_index`'s saves have left it.  A WHERE or constraint error
returns with `fileState` — the in-memory row replacements are never saved —
while the success exit dumps the in-memory table (pre-call indexes and
all) over the intermediate saves. -/
def updateRowsLoop (file0 : Table) (columnDefs : List ColumnDef)
    (updateInfo : List (Nat × ColumnDef × Value)) (columnIndices : List (String × Nat))
    (whereClause : Option String) :
    List (List Value) → Nat → List (List Value) → Table → Nat → String × Table
  | [], _, memData, _, count =>
    ("Updated " ++ toString count ++ " row(s) in '" ++ file0.name ++ "'",
      { file0 with data := memData })
  | row :: rest, rowIdx, memData, fileState, count =>
    match updateWhereTest columnIndices whereClause row with
    | .error msg => (msg, fileState)
    | .ok shouldUpdate =>
      if shouldUpdate then
        let step := applyUpdatesStep row fileState updateInfo
        match checkConstraints { file0 with data := memData } step.1 columnDefs (some rowIdx) with
        | some err => (err, step.2)
        | none =>
          updateRowsLoop file0 columnDefs updateInfo columnIndices whereClause
            rest (rowIdx + 1) (memData.set rowIdx step.1) step.2 (count + 1)
      else
        updateRowsLoop file0 columnDefs updateInfo columnIndices whereClause
          rest (rowIdx + 1) memData fileState count

/-- `Database.update` (lines 420-531). -/
def Database.update (file : Table) (updates : List (String × Value))
    (whereClause : Option String) : String × Table :=
  let columnDefs := file.column_definitions
  let columnIndices := columnIndicesOfNames (columnDefs.map (·.name))
  match buildUpdateInfo file.name columnDefs columnIndices updates with
  | .error msg => (msg, file)
  | .ok updateInfo =>
    updateRowsLoop file columnDefs updateInfo columnIndices whereClause
      file.data 0 file.data file 0

/-! ## DELETE: `Database.delete` -/

/-- The filter loop of `delete` with a predicate (lines 582-594): a
matching row is dropped and counted after `_update_index` removes it from
every stored index of the in-memory table; a non-matching row is kept. -/
def deleteRowsLoop (file0 : Table) (columnIndices : List (String × Nat)) (colIdx : Nat)
    (val : String) :
    List (List Value) → Nat → List (List Value) → Nat → Table →
      List (List Value) × Nat × Table
  | [], _, newData, deletedCount, fileState => (newData, deletedCount, fileState)
  | row :: rest, rowIdx, newData, deletedCount, fileState =>
    if rowMatchesVal colIdx val row then
      let fileState :=
        columnIndices.foldl
          (fun fs ci =>
            if (lookupAssoc file0.indexes ci.1).isSome then
              updateIndexOnDelete fs ci.1 (row.getD ci.2 .null) rowIdx
            else fs)
          fileState
      deleteRowsLoop file0 columnIndices colIdx val rest (rowIdx + 1)
        newData (deletedCount + 1) fileState
    else
      deleteRowsLoop file0 columnIndices colIdx val rest (rowIdx + 1)
        (newData ++ [row]) deletedCount fileState

/-- `Database.delete` (lines 533-604).  Without a predicate the in-memory
table itself is cleared (rows and every index's mapping) and saved.  With
a predicate the kept rows replace `data` and the final dump of the
in-memory table overwrites the per-row index saves, so the persisted
indexes are the pre-delete ones. -/
def Database.delete (file : Table) (whereClause : Option String) : String × Table :=
  match whereClause with
  | none =>
    let deletedCount := file.data.length
    let cleared :=
      { file with
        indexes := file.indexes.map (fun kv => (kv.1, { kv.2 with data := [] }))
        data := [] }
    ("Deleted " ++ toString deletedCount ++ " row(s) from '" ++ file.name ++ "'", cleared)
  | some wc =>
    match parseWhereEq wc with
    | none => ("Error: Invalid WHERE clause. Use: column=value", file)
    | some cv =>
      let columns := file.column_definitions.map (·.name)
      let columnIndices := columnIndicesOfNames columns
      match lookupAssoc columnIndices cv.1 with
      | none =>
        ("Error: Column '" ++ cv.1 ++ "' in WHERE clause doesn't exist", file)
      | some colIdx =>
        let r := deleteRowsLoop file columnIndices colIdx cv.2 file.data 0 [] 0 file
        let _ := r.2.2
        ("Deleted " ++ toString r.2.1 ++ " row(s) from '" ++ file.name ++ "'",
          { file with data := r.1 })

/-! ## Command parser: `parser.py` (CREATE TABLE and INSERT families) -/

/-- The structured command `parse_sql` returns.  The SELECT / UPDATE /
DELETE / DROP sub-parsers are dispatched but not modelled here; `otherCmd`
marks those four families. -/
inductive ParsedCommand where
  | createTableCmd (tableName : String) (columns : List ColumnDef) (hasTypes : Bool)
  | insertCmd (tableName : String) (values : List Value)
  | otherCmd (kind : String)
  | errorCmd (msg : String)
deriving DecidableEq, Repr

/-- A regex `\w` character: ASCII letter, digit or underscore. -/
def isWordChar (c : Char) : Bool :=
  c.isAlphanum || c = '_'

/-- Case-insensitive match of a literal at the head of `cs`
(`re.IGNORECASE` on the pattern's literal text); returns the rest. -/
def dropCiLiteral : List Char → List Char → Option (List Char)
  | cs, [] => some cs
  | [], _ :: _ => none
  | c :: cs, p :: ps => if c.toUpper = p.toUpper then dropCiLiteral cs ps else none

/-- The greedy `\w+` run at the head of the input. -/
def takeWordRun : List Char → List Char × List Char
  | [] => ([], [])
  | c :: cs =>
    if isWordChar c then
      let p := takeWordRun cs
      (c :: p.1, p.2)
    else ([], c :: cs)

/-- The greedy `\s*` run. -/
def dropWs (cs : List Char) : List Char :=
  cs.dropWhile Char.isWhitespace

/-- `\s+`: at least one whitespace character. -/
def dropWs1 (cs : List Char) : Option (List Char) :=
  match cs with
  | c :: rest => if c.isWhitespace then some (dropWs rest) else none
  | [] => none

/-- The suffix `(.*)\)` of the two patterns, prefix-anchored: `.` does not
cross a newline and `*` is greedy, so the group runs to the last `)` of
the first line; text after that `)` is ignored (`re.match` matches a
prefix). -/
def upToLastClose (cs : List Char) : Option String :=
  let line := cs.takeWhile (fun c => c ≠ '\n')
  match (line.enum.filter (fun p => p.2 = ')')).getLast? with
  | none => none
  | some p => some (String.mk (line.take p.1))

/-- `re.match(r"CREATE TABLE (\w+)\s*\((.*)\)", sql, re.IGNORECASE)`
(parser.py line 54): the table name and the text between the parentheses. -/
def matchCreateTableRe (sql : String) : Option (String × String) :=
  match dropCiLiteral sql.data "CREATE TABLE ".data with
  | none => none
  | some rest =>
    let wr := takeWordRun rest
    if wr.1 = [] then none
    else
      match dropWs wr.2 with
      | c :: rest4 =>
        if c = '(' then (upToLastClose rest4).map (fun cols => (String.mk wr.1, cols))
        else none
      | [] => none

/-- `re.match(r"INSERT INTO (\w+)\s+VALUES\s*\((.*)\)", sql, re.IGNORECASE)`
(parser.py line 232). -/
def matchInsertRe (sql : String) : Option (String × String) :=
  match dropCiLiteral sql.data "INSERT INTO ".data with
  | none => none
  | some rest =>
    let wr := takeWordRun rest
    if wr.1 = [] then none
    else
      match dropWs1 wr.2 with
      | none => none
      | some rest3 =>
        match dropCiLiteral rest3 "VALUES".data with
        | none => none
        | some rest4 =>
          match dropWs rest4 with
          | c :: rest5 =>
            if c = '(' then (upToLastClose rest5).map (fun vals => (String.mk wr.1, vals))
            else none
          | [] => none

/-- The comma split of `_parse_columns_with_types` (lines 86-103): split on
commas at parenthesis depth zero, stripping each piece; the last piece only
when nonempty. -/
def splitColsLoop : List Char → Int → String → List String
  | [], _, current => if pyStrip current ≠ "" then [pyStrip current] else []
  | c :: rest, depth, current =>
    if c = '(' then splitColsLoop rest (depth + 1) (current.push c)
    else if c = ')' then splitColsLoop rest (depth - 1) (current.push c)
    else if c = ',' && depth = 0 then pyStrip current :: splitColsLoop rest depth ""
    else splitColsLoop rest depth (current.push c)

/-- Python `.split()` on whitespace: maximal runs, no empty pieces. -/
def pyWhitespaceSplit (s : String) : List String :=
  ((splitByPredAux Char.isWhitespace s.data []).map String.mk).filter (· ≠ "")

/-- Python `s.rstrip(')')`. -/
def rstripClose (s : String) : String :=
  String.mk (s.data.reverse.dropWhile (fun c => c = ')') |>.reverse)

/-- The constraint-word loop of `_parse_columns_with_types` (lines
153-180): `PRIMARY KEY`, `NOT NULL`, `UNIQUE`, `NULL`, lone `PRIMARY` /
`NOT`; any other word is skipped. -/
def parseConstraintWords : List String → List String
  | [] => []
  | [w] =>
    let c := strToUpper w
    if c = "PRIMARY" then ["PRIMARY"]
    else if c = "NOT" then ["NOT"]
    else if c = "UNIQUE" || c = "NULL" then [c]
    else []
  | w :: k :: rest =>
    let c := strToUpper w
    if c = "PRIMARY" then
      if strToUpper k = "KEY" then "PRIMARY KEY" :: parseConstraintWords rest
      else "PRIMARY" :: parseConstraintWords (k :: rest)
    else if c = "NOT" then
      if strToUpper k = "NULL" then "NOT NULL" :: parseConstraintWords rest
      else "NOT" :: parseConstraintWords (k :: rest)
    else if c = "UNIQUE" || c = "NULL" then c :: parseConstraintWords (k :: rest)
    else parseConstraintWords (k :: rest)

/-- The type names `_parse_columns_with_types` accepts (line 183). -/
def validTypes : List String :=
  ["INT", "INTEGER", "VARCHAR", "TEXT", "STRING", "DECIMAL", "NUMERIC",
   "FLOAT", "REAL", "BOOLEAN", "BOOL", "DATE", "DATETIME"]

/-- One `name TYPE [constraints]` definition (lines 105-193): reject a
bare `VARCHAR`, parse `VARCHAR(n)` / `DECIMAL(p,s)` parameters, collect
constraint tags, and reject a base type outside `validTypes`. -/
def parseOneColumnDef (colDef : String) : Except String ColumnDef :=
  let parts := pyWhitespaceSplit (pyStrip colDef)
  if parts.length < 2 then
    .error ("Invalid column definition: " ++ colDef ++ ". Need: name TYPE [constraints]")
  else
    let colName := parts.getD 0 ""
    let colType0 := strToUpper (parts.getD 1 "")
    if colType0 = "VARCHAR" then
      .error "VARCHAR must specify length: VARCHAR(n)"
    else
      let parsedType : Except String (String × String × List Int) :=
        if strContains colType0 '(' then
          match strSplitOnChar colType0 '(' with
          | _ :: [] => .error "unreachable"
          | baseType :: p1 :: _ =>
            let paramsStr := rstripClose p1
            if baseType = "VARCHAR" then
              match parseIntString paramsStr with
              | some maxLength =>
                .ok ("VARCHAR(" ++ toString maxLength ++ ")", baseType, [maxLength])
              | none => .error ("Invalid VARCHAR length: " ++ paramsStr)
            else if baseType = "DECIMAL" then
              if strContains paramsStr ',' then
                match strSplitOnChar paramsStr ',' with
                | [ps, ss] =>
                  match parseIntString ps, parseIntString ss with
                  | some precision, some scale =>
                    .ok ("DECIMAL(" ++ toString precision ++ "," ++ toString scale ++ ")",
                      baseType, [precision, scale])
                  | _, _ => .error ("Invalid DECIMAL parameters: " ++ paramsStr)
                | _ => .error ("Invalid DECIMAL parameters: " ++ paramsStr)
              else
                match parseIntString paramsStr with
                | some precision =>
                  .ok ("DECIMAL(" ++ toString precision ++ ",0)", baseType, [precision, 0])
                | none => .error ("Invalid DECIMAL parameters: " ++ paramsStr)
            else .error ("Unsupported parameterized type: " ++ baseType)
          | [] => .error "unreachable"
        else .ok (colType0, colType0, [])
      match parsedType with
      | .error e => .error e
      | .ok t =>
        let constraints := parseConstraintWords (parts.drop 2)
        if t.2.1 ∈ validTypes then
          .ok { name := colName, type := t.1, type_params := t.2.2, constraints := constraints }
        else
          .error ("Unsupported data type: " ++ t.1 ++ ". Supported: " ++
            String.intercalate ", " validTypes)

/-- The column loop of `_parse_columns_with_types`: skip empty pieces,
first error wins. -/
def parseColumnDefList : List String → Except String (List ColumnDef)
  | [] => .ok []
  | cd :: rest =>
    if cd = "" then parseColumnDefList rest
    else
      match parseOneColumnDef cd with
      | .error e => .error e
      | .ok c =>
        match parseColumnDefList rest with
        | .ok cs => .ok (c :: cs)
        | .error e => .error e

/-- `_parse_columns_with_types` (lines 78-198). -/
def parseColumnsWithTypes (columnsStr : String) : Except String (List ColumnDef) :=
  match parseColumnDefList (splitColsLoop columnsStr.data 0 "") with
  | .error e => .error e
  | .ok cols => if cols = [] then .error "No columns specified" else .ok cols

/-- `_parse_columns_old_style` (lines 201-225): every comma piece becomes
an untyped TEXT column named by the piece. -/
def parseColumnsOldStyle (tableName : String) (columnsStr : String) : ParsedCommand :=
  let columns := ((strSplitOnChar columnsStr ',').map pyStrip).filter (· ≠ "")
  if columns = [] then .errorCmd "No columns specified"
  else
    .createTableCmd tableName
      (columns.map (fun c => { name := c, type := "TEXT", type_params := [], constraints := [] }))
      true

/-- `_parse_create_table` (lines 46-75): regex match, typed column parse,
and — when the typed parse fails — the old-style fallback. -/
def parseCreateTable (sql : String) : ParsedCommand :=
  match matchCreateTableRe sql with
  | none =>
    .errorCmd ("Invalid CREATE TABLE syntax. Use: CREATE TABLE name (col1, col2, ...) " ++
      "or CREATE TABLE name (col1 TYPE, col2 TYPE, ...)")
  | some tc =>
    match parseColumnsWithTypes tc.2 with
    | .ok columns => .createTableCmd tc.1 columns true
    | .error _ => parseColumnsOldStyle tc.1 tc.2

/-- `_parse_single_value` (lines 440-461): strip, unquote, else try `int`,
then `float` when a dot is present, else keep the raw text. -/
def parseSingleValue (valStr : String) : Value :=
  let val := pyStrip valStr
  if (strStartsWith val "'" && strEndsWith val "'") ||
      (strStartsWith val "\"" && strEndsWith val "\"") then
    .str ((val.drop 1).dropRight 1)
  else if strContains val '.' then
    match parseFloatString val with
    | some fv => .float fv.1 fv.2
    | none => .str val
  else
    match parseIntString val with
    | some n => .int n
    | none => .str val

/-- The quote-aware tokenizer of `_parse_values` (lines 405-425): commas
split only outside quotes; each piece is stripped. -/
def parseValuesLoop : List Char → Bool → Option Char → String → List String
  | [], _, _, current => if current ≠ "" then [pyStrip current] else []
  | c :: rest, inQuotes, quoteChar, current =>
    if (c = squote || c = dquote) && !inQuotes then
      parseValuesLoop rest true (some c) (current.push c)
    else if (match quoteChar with | some qc => c = qc | none => False) && inQuotes then
      parseValuesLoop rest false quoteChar (current.push c)
    else if c = ',' && !inQuotes then
      pyStrip current :: parseValuesLoop rest inQuotes quoteChar ""
    else
      parseValuesLoop rest inQuotes quoteChar (current.push c)

/-- `_parse_values` (lines 401-437): tokenize, drop empty pieces, coerce
each literal. -/
def parseValues (valuesStr : String) : List Value :=
  ((parseValuesLoop valuesStr.data false none "").filter (· ≠ "")).map parseSingleValue

/-- `_parse_insert` (lines 228-250). -/
def parseInsert (sql : String) : ParsedCommand :=
  match matchInsertRe sql with
  | none => .errorCmd "Invalid INSERT syntax. Use: INSERT INTO table VALUES (...)"
  | some tv => .insertCmd tv.1 (parseValues tv.2)

/-- `parse_sql` (lines 7-43): strip, dispatch on the upper-cased prefix.
The SELECT / UPDATE / DELETE / DROP sub-parsers are out of scope here and
dispatch to `otherCmd`. -/
def parseSql (sqlCommand : String) : ParsedCommand :=
  let sql := pyStrip sqlCommand
  if sql = "" then .errorCmd "Empty command"
  else
    let sqlUpper := strToUpper sql
    if strStartsWith sqlUpper "CREATE TABLE" then parseCreateTable sql
    else if strStartsWith sqlUpper "INSERT INTO" then parseInsert sql
    else if strStartsWith sqlUpper "SELECT" then .otherCmd "select"
    else if strStartsWith sqlUpper "UPDATE" then .otherCmd "update"
    else if strStartsWith sqlUpper "DELETE" then .otherCmd "delete"
    else if strStartsWith sqlUpper "DROP TABLE" then .otherCmd "drop_table"
    else .errorCmd ("Command not supported: " ++ sql)

/-! ## Query executor: `executor.py` -/

/-- The projection argument of a SELECT: `*` or an explicit column list. -/
inductive SelCols where
  | star
  | cols (l : List String)
deriving DecidableEq, Repr

/-- The projection resolution loop of `_execute_select` (lines 140-145):
first-occurrence positions, aborting at the first unknown column. -/
def resolveColumnIndices (allColumns : List String) (tableName : String) :
    List String → Except String (List Nat)
  | [] => .ok []
  | c :: rest =>
    if c ∈ allColumns then
      match resolveColumnIndices allColumns tableName rest with
      | .ok is => .ok (allColumns.indexOf c :: is)
      | .error e => .error e
    else
      .error ("Error: Column '" ++ c ++ "' not found in table '" ++ tableName ++ "'")

/-- The row fetch of `_execute_select` (lines 122-126): `select_with_where`
when a truthy WHERE clause is given, else `select_all`. -/
def selectRowsForExec (file : Table) (whereClause : Option String) : List (List Value) :=
  match whereClause with
  | some wc => if wc ≠ "" then Database.select_with_where file (some wc) else Database.select_all file
  | none => Database.select_all file

/-- `SQLExecutor._execute_select` (lines 116-156) for an existing table:
fetch the rows, return them as-is for `*` or an empty result, else resolve
and apply the projection. -/
def executeSelect (file : Table) (columns : SelCols) (whereClause : Option String) :
    Except String (List (List Value)) :=
  let rows := selectRowsForExec file whereClause
  match columns with
  | .star => .ok rows
  | .cols cols =>
    if rows = [] then .ok rows
    else
      match resolveColumnIndices file.columns file.name cols with
      | .error e => .error e
      | .ok columnIndices =>
        if columnIndices = [] then
          .error ("Error: No valid columns specified from table '" ++ file.name ++ "'")
        else
          .ok (rows.map (fun row => columnIndices.map (fun i => row.getD i .null)))

/-- `SQLExecutor._apply_where_to_join` (lines 250-301): resolve the
possibly table-qualified column against the concatenated row; any failure
to resolve returns the rows unfiltered. -/
def applyWhereToJoin (rows : List (List Value)) (whereClause : String)
    (t1 t2 : Table) : List (List Value) :=
  match parseWhereEq whereClause with
  | none => rows
  | some cv =>
    let pos : Option Nat :=
      if strContains cv.1 '.' then
        match strSplitOnChar cv.1 '.' with
        | [tablePart, colPart] =>
          let tablePart := pyStrip tablePart
          let colPart := pyStrip colPart
          if tablePart = t1.name ∧ colPart ∈ t1.columns then
            some (t1.columns.indexOf colPart)
          else if tablePart = t2.name ∧ colPart ∈ t2.columns then
            some (t1.columns.length + t2.columns.indexOf colPart)
          else none
        | _ => none
      else
        if cv.1 ∈ t1.columns then some (t1.columns.indexOf cv.1)
        else if cv.1 ∈ t2.columns then some (t1.columns.length + t2.columns.indexOf cv.1)
        else none
    match pos with
    | none => rows
    | some i => rows.filter (rowMatchesVal i cv.2)

/-- The column-position dict `_filter_join_columns` builds (lines
303-318): qualified and unqualified names of the first table, then of the
second, the unqualified ones only when not already present. -/
def joinColumnPositions (t1 t2 : Table) : List (String × Nat) :=
  let p1 := t1.columns.enum.foldl
    (fun acc p => assocSet (assocSet acc (t1.name ++ "." ++ p.2) p.1) p.2 p.1) []
  t2.columns.enum.foldl
    (fun acc p =>
      let acc := assocSet acc (t2.name ++ "." ++ p.2) (t1.columns.length + p.1)
      if (lookupAssoc acc p.2).isSome then acc
      else assocSet acc p.2 (t1.columns.length + p.1))
    p1

/-- `SQLExecutor._filter_join_columns` (lines 303-338): an unknown
requested column is silently skipped; when none resolves the rows are
returned unprojected. -/
def filterJoinColumns (rows : List (List Value)) (columns : List String)
    (t1 t2 : Table) : List (List Value) :=
  let positions := joinColumnPositions t1 t2
  let columnIndices := columns.filterMap (fun c => lookupAssoc positions c)
  if columnIndices = [] then rows
  else rows.map (fun row => columnIndices.map (fun i => row.getD i .null))

/-- `SQLExecutor._execute_join` (lines 158-248) for two existing tables
`t1`, `t2` (referred to by their names in the join condition): parse
`left.col = right.col`, resolve both sides, nested-loop join on
string-form equality, then the optional WHERE filter and projection. -/
def executeJoin (t1 t2 : Table) (columns : SelCols) (joinCondition : String)
    (whereClause : Option String) : Except String (List (List Value)) :=
  if ¬ strContains joinCondition '=' then
    .error "Error: Invalid JOIN condition. Use: table1.column = table2.column"
  else
    match strSplitOnChar joinCondition '=' with
    | [] => .error "Error: Invalid JOIN condition. Use: table1.column = table2.column"
    | l :: rest =>
      let left := pyStrip l
      let right := pyStrip (String.intercalate "=" rest)
      match strSplitOnChar left '.', strSplitOnChar right '.' with
      | [lt, lc], [rt, rc] =>
        let leftTable := pyStrip lt
        let leftCol := pyStrip lc
        let rightTable := pyStrip rt
        let rightCol := pyStrip rc
        if ¬ ((leftTable = t1.name ∨ leftTable = t2.name) ∧
              (rightTable = t1.name ∨ rightTable = t2.name)) then
          .error "Error: Table names in JOIN condition don't match joined tables"
        else
          let col1Idx : Int :=
            if leftTable = t1.name ∧ leftCol ∈ t1.columns then t1.columns.indexOf leftCol
            else if leftTable = t2.name ∧ leftCol ∈ t2.columns then t2.columns.indexOf leftCol
            else -1
          let col2Idx : Int :=
            if rightTable = t1.name ∧ rightCol ∈ t1.columns then t1.columns.indexOf rightCol
            else if rightTable = t2.name ∧ rightCol ∈ t2.columns then t2.columns.indexOf rightCol
            else -1
          if col1Idx = -1 ∨ col2Idx = -1 then
            .error "Error: Column in JOIN condition not found"
          else
            let result :=
              t1.data.foldr
                (fun row1 acc =>
                  (t2.data.filterMap (fun row2 =>
                    let val1 :=
                      if leftTable = t1.name then row1.getD col1Idx.toNat .null
                      else row2.getD col1Idx.toNat .null
                    let val2 :=
                      if rightTable = t1.name then row1.getD col2Idx.toNat .null
                      else row2.getD col2Idx.toNat .null
                    if pyStr val1 == pyStr val2 then some (row1 ++ row2) else none)) ++ acc)
                []
            let result :=
              match whereClause with
              | some wc =>
                if wc ≠ "" ∧ result ≠ [] then applyWhereToJoin result wc t1 t2 else result
              | none => result
            let result :=
              match columns with
              | .star => result
              | .cols cs => if result ≠ [] then filterJoinColumns result cs t1 t2 else result
            .ok result
      | _, _ => .error "Error: JOIN condition must be in format: table.column = table.column"

/-! ## The index contents the specification demands -/

/-- The mapping the spec's invariant describes for one indexed column
("mapping from a scalar value to the set of row positions currently
holding that value", in stored string-key form): the grouping a fresh
rebuild of the index over the current rows produces. -/
def specIndexOfRows (rows : List (List Value)) (colIdx : Nat) : List (String × List Nat) :=
  jsonLoadObject ((buildIndexGroups rows colIdx).map (fun g => (jsonKeyStr g.1, g.2)))

/-! ## Helper lemmas -/

/-- Two strings whose first characters differ are different. -/
theorem string_ne_of_head_ne (a b : String) (h : a.data.head? ≠ b.data.head?) : a ≠ b :=
  fun he => h (by rw [he])

/-- An index rebuild via `_create_index` rewrites only the indexes of the
stored file, never its rows. -/
theorem updateIndexOnUpdate_data (f : Table) (c : String) :
    (updateIndexOnUpdate f c).data = f.data := by
  unfold updateIndexOnUpdate
  cases lookupAssoc f.indexes c <;> rfl

/-- The SET application step rewrites only indexes of the stored file. -/
theorem applyUpdatesStep_data (ui : List (Nat × ColumnDef × Value)) (row : List Value)
    (fs : Table) : (applyUpdatesStep row fs ui).2.data = fs.data := by
  induction ui generalizing row fs with
  | nil => rfl
  | cons i rest ih =>
    show (applyUpdatesStep (row.set i.1 i.2.2)
      (if isPkOrUnique i.2.1 then updateIndexOnUpdate fs i.2.1.name else fs) rest).2.data = fs.data
    rw [ih]
    by_cases h : isPkOrUnique i.2.1 = true
    · simp [h, updateIndexOnUpdate_data]
    · simp [h]

/-- Every exit of the update row loop either reports the success message or
leaves the stored rows untouched: the in-memory row replacements are only
saved by the success exit. -/
theorem updateRowsLoop_cases (f0 : Table) (cds : List ColumnDef)
    (ui : List (Nat × ColumnDef × Value)) (ci : List (String × Nat))
    (wc : Option String) :
    ∀ (rows : List (List Value)) (rowIdx : Nat) (memData : List (List Value))
      (fs : Table) (count : Nat), fs.data = f0.data →
      (∃ n : Nat, (updateRowsLoop f0 cds ui ci wc rows rowIdx memData fs count).1 =
        "Updated " ++ toString n ++ " row(s) in '" ++ f0.name ++ "'") ∨
      (updateRowsLoop f0 cds ui ci wc rows rowIdx memData fs count).2.data = f0.data := by
  intro rows
  induction rows with
  | nil =>
    intro rowIdx memData fs count _
    exact Or.inl ⟨count, rfl⟩
  | cons row rest ih =>
    intro rowIdx memData fs count hfs
    unfold updateRowsLoop
    cases updateWhereTest ci wc row with
    | error msg => exact Or.inr hfs
    | ok shouldUpdate =>
      by_cases hu : shouldUpdate = true
      · subst hu
        dsimp only
        cases hcc : checkConstraints { f0 with data := memData }
            (applyUpdatesStep row fs ui).1 cds (some rowIdx) with
        | some err =>
          simp only [hcc]
          exact Or.inr ((applyUpdatesStep_data ui row fs).trans hfs)
        | none =>
          simp only [hcc]
          exact ih (rowIdx + 1) (memData.set rowIdx (applyUpdatesStep row fs ui).1)
            (applyUpdatesStep row fs ui).2 (count + 1)
            ((applyUpdatesStep_data ui row fs).trans hfs)
      · have hb : shouldUpdate = false := by
          cases shouldUpdate
          · rfl
          · exact absurd rfl hu
        subst hb
        dsimp only
        exact ih (rowIdx + 1) memData fs count hfs

/-- Any `update` call either reports `Updated n row(s)` or leaves the
stored rows exactly as they were. -/
theorem update_result_cases (f : Table) (u : List (String × Value)) (w : Option String) :
    (∃ n : Nat, (Database.update f u w).1 =
      "Updated " ++ toString n ++ " row(s) in '" ++ f.name ++ "'") ∨
    (Database.update f u w).2.data = f.data := by
  unfold Database.update
  dsimp only
  rcases hb : buildUpdateInfo f.name f.column_definitions
      (columnIndicesOfNames (f.column_definitions.map (fun x => x.name))) u with msg | ui
  · right
    simp [hb]
  · simp only [hb]
    exact updateRowsLoop_cases f f.column_definitions ui
      (columnIndicesOfNames (f.column_definitions.map (fun x => x.name))) w f.data 0 f.data f 0 rfl

/-- The delete row loop keeps exactly the non-matching rows and counts
exactly the matching ones. -/
theorem deleteRowsLoop_spec (f0 : Table) (ci : List (String × Nat)) (colIdx : Nat)
    (val : String) :
    ∀ (rows : List (List Value)) (rowIdx : Nat) (acc : List (List Value)) (cnt : Nat)
      (fs : Table),
      (deleteRowsLoop f0 ci colIdx val rows rowIdx acc cnt fs).1 =
        acc ++ rows.filter (fun r => !(rowMatchesVal colIdx val r)) ∧
      (deleteRowsLoop f0 ci colIdx val rows rowIdx acc cnt fs).2.1 =
        cnt + rows.countP (rowMatchesVal colIdx val) := by
  intro rows
  induction rows with
  | nil => intro rowIdx acc cnt fs; simp [deleteRowsLoop]
  | cons row rest ih =>
    intro rowIdx acc cnt fs
    unfold deleteRowsLoop
    by_cases h : rowMatchesVal colIdx val row = true
    · simp only [h, if_pos]
      constructor
      · rw [(ih _ _ _ _).1]
        simp [List.filter_cons, h]
      · rw [(ih _ _ _ _).2]
        simp [List.countP_cons, h]
        omega
    · have hb : rowMatchesVal colIdx val row = false := by
        cases hx : rowMatchesVal colIdx val row
        · rfl
        · exact absurd hx h
      simp only [hb, Bool.false_eq_true, if_false]
      constructor
      · rw [(ih _ _ _ _).1]
        simp [List.filter_cons, hb]
      · rw [(ih _ _ _ _).2]
        simp [List.countP_cons, hb]

/-- Any `insert` call either reports success or returns the stored file
unchanged: every error return happens before the only write. -/
theorem insert_result_cases (f : Table) (vs : List Value) :
    (Database.insert f vs).1 = "Inserted into '" ++ f.name ++ "'" ∨
    (Database.insert f vs).2 = f := by
  unfold Database.insert
  dsimp only
  by_cases hlen : vs.length ≠ f.column_definitions.length
  · rw [if_pos hlen]
    exact Or.inr rfl
  · rw [if_neg hlen]
    rcases hv : validateRow vs f.column_definitions with msg | tvs
    · right
      simp [hv]
    · cases hcc : checkConstraints f tvs f.column_definitions none with
      | some err =>
        right
        simp [hv, hcc]
      | none =>
        left
        simp [hv, hcc]

/-- A wrong column count makes `insert` fail (the message is not the
success message) and leaves the stored file unchanged. -/
theorem insert_wrong_count (f : Table) (vs : List Value)
    (h : vs.length ≠ f.column_definitions.length) :
    (Database.insert f vs).2 = f ∧
    (Database.insert f vs).1 ≠ "Inserted into '" ++ f.name ++ "'" := by
  unfold Database.insert
  dsimp only
  rw [if_pos h]
  refine ⟨rfl, ?_⟩
  exact string_ne_of_head_ne _ _ (by intro hx; simp at hx)

/-- When some requested column is unknown, the projection resolution of
`_execute_select` returns a ColumnNotFound error (for the first unknown
one). -/
theorem resolveColumnIndices_error (allCols : List String) (tn : String) :
    ∀ cols : List String, (∃ c ∈ cols, c ∉ allCols) →
      ∃ c, c ∈ cols ∧ c ∉ allCols ∧
        resolveColumnIndices allCols tn cols =
          .error ("Error: Column '" ++ c ++ "' not found in table '" ++ tn ++ "'") := by
  intro cols
  induction cols with
  | nil => rintro ⟨c, hc, _⟩; cases hc
  | cons c rest ih =>
    rintro ⟨b, hb, hbn⟩
    by_cases hc : c ∈ allCols
    · have hbr : b ∈ rest := by
        rcases List.mem_cons.mp hb with h1 | h1
        · subst h1; exact absurd hc hbn
        · exact h1
      obtain ⟨c', h1, h2, h3⟩ := ih ⟨b, hbr, hbn⟩
      refine ⟨c', List.mem_cons_of_mem _ h1, h2, ?_⟩
      unfold resolveColumnIndices
      rw [if_pos hc, h3]
    · refine ⟨c, List.mem_cons_self _ _, hc, ?_⟩
      unfold resolveColumnIndices
      rw [if_neg hc]

/-- With a nonempty fetched row set and an unknown requested column, the
single-table SELECT aborts with the ColumnNotFound error. -/
theorem execute_select_unknown_column (t : Table) (cols : List String) (wc : Option String)
    (hrows : selectRowsForExec t wc ≠ [])
    (hbad : ∃ c ∈ cols, c ∉ t.columns) :
    ∃ c, c ∈ cols ∧ c ∉ t.columns ∧
      executeSelect t (.cols cols) wc =
        .error ("Error: Column '" ++ c ++ "' not found in table '" ++ t.name ++ "'") := by
  obtain ⟨c, h1, h2, h3⟩ := resolveColumnIndices_error t.columns t.name cols hbad
  refine ⟨c, h1, h2, ?_⟩
  unfold executeSelect
  dsimp only
  rw [if_neg hrows, h3]

/-- The matcher test is string equality of the stored value's `str()` with
the unquoted predicate text. -/
theorem rowMatchesVal_iff (i : Nat) (v : String) (r : List Value) :
    rowMatchesVal i v r = true ↔ pyStr (r.getD i .null) = v := by
  unfold rowMatchesVal
  exact beq_iff_eq

/-- The scan select returns exactly the rows the matcher accepts. -/
theorem scan_where_filter (t : Table) (wc c v : String) (i : Nat)
    (hp : parseWhereEq wc = some (c, v))
    (hc : findColIndex t.column_definitions c = some i) :
    selectWithWhereScan t wc = t.data.filter (rowMatchesVal i v) := by
  unfold selectWithWhereScan
  rw [hp]
  dsimp only
  rw [hc]

/-- The per-row WHERE test of `update` evaluates to the matcher. -/
theorem update_where_test_eq (ci : List (String × Nat)) (wc c v : String) (i : Nat)
    (row : List Value) (hw : wc ≠ "")
    (hp : parseWhereEq wc = some (c, v))
    (hl : lookupAssoc ci c = some i) :
    updateWhereTest ci (some wc) row = .ok (rowMatchesVal i v row) := by
  unfold updateWhereTest
  dsimp only
  rw [if_neg hw, hp]
  dsimp only
  rw [hl]

/-- `delete` with a predicate keeps exactly the rows the matcher rejects
and reports the count of the rows it accepts. -/
theorem delete_where_spec (t : Table) (wc c v : String) (i : Nat)
    (hp : parseWhereEq wc = some (c, v))
    (hl : lookupAssoc (columnIndicesOfNames (t.column_definitions.map (fun x => x.name))) c =
      some i) :
    (Database.delete t (some wc)).2.data = t.data.filter (fun r => !(rowMatchesVal i v r)) ∧
    (Database.delete t (some wc)).1 =
      "Deleted " ++ toString (t.data.countP (rowMatchesVal i v)) ++
        " row(s) from '" ++ t.name ++ "'" := by
  unfold Database.delete
  dsimp only
  rw [hp]
  dsimp only
  rw [hl]
  dsimp only
  constructor
  · rw [(deleteRowsLoop_spec t _ i v t.data 0 [] 0 t).1]
    rfl
  · rw [(deleteRowsLoop_spec t _ i v t.data 0 [] 0 t).2]
    rw [Nat.zero_add]

/-! ## Concrete scenarios used by the claim theorems -/

/-- The schema of `tests/test_indexing.py`: `id INT PRIMARY KEY`,
`name VARCHAR(50)`, `email VARCHAR(100) UNIQUE`. -/
def usersDefs : List ColumnDef :=
  [{ name := "id", type := "INT", type_params := [], constraints := ["PRIMARY KEY"] },
   { name := "name", type := "VARCHAR(50)", type_params := [50], constraints := [] },
   { name := "email", type := "VARCHAR(100)", type_params := [100], constraints := ["UNIQUE"] }]

/-- The freshly created `users` table (indexes on `id` and `email`, empty). -/
def usersT0 : Table := Database.create_table "users" usersDefs

/-- `users` after inserting `[1, 'Alice', 'alice@test.com']`. -/
def usersT1 : Table :=
  (Database.insert usersT0 [Value.int 1, Value.str "Alice", Value.str "alice@test.com"]).2

/-- `users` after also inserting `[2, 'Bob', 'bob@test.com']`. -/
def usersT2 : Table :=
  (Database.insert usersT1 [Value.int 2, Value.str "Bob", Value.str "bob@test.com"]).2

/-- An unconstrained one-column table `products(id INT)`. -/
def productsT0 : Table :=
  Database.create_table "products"
    [{ name := "id", type := "INT", type_params := [], constraints := [] }]

/-- `products` after inserting `[1]`. -/
def productsT1 : Table := (Database.insert productsT0 [Value.int 1]).2

/-- `products` after `create_index` on `id`. -/
def productsT2 : Table := (Database.create_index productsT1 "id").2

/-- `products` after the post-index insert of `[2]`. -/
def productsT3 : Table := (Database.insert productsT2 [Value.int 2]).2

/-- A table `t(a TEXT, id INT UNIQUE)` holding `[x, 1]` and `[x, 2]`:
an UPDATE `SET id=9 WHERE a=x` matches both rows and hits the UNIQUE
violation on the second. -/
def updDemoT : Table :=
  (Database.insert
    (Database.insert
      (Database.create_table "t"
        [{ name := "a", type := "TEXT", type_params := [], constraints := [] },
         { name := "id", type := "INT", type_params := [], constraints := ["UNIQUE"] }])
      [Value.str "x", Value.int 1]).2
    [Value.str "x", Value.int 2]).2

/-- Table `a(id INT)` holding one row `[1]`. -/
def tableA : Table :=
  (Database.insert
    (Database.create_table "a" [{ name := "id", type := "INT", type_params := [], constraints := [] }])
    [Value.int 1]).2

/-- Table `b(aid INT)` holding one row `[1]`. -/
def tableB : Table :=
  (Database.insert
    (Database.create_table "b" [{ name := "aid", type := "INT", type_params := [], constraints := [] }])
    [Value.int 1]).2

/-- An empty table `e(id INT)`. -/
def emptyT : Table :=
  Database.create_table "e" [{ name := "id", type := "INT", type_params := [], constraints := [] }]

/-- The columns of the C7 scenario `CREATE TABLE t (id INT PRIMARY KEY,
name VARCHAR(3))`. -/
def varcharDefs : List ColumnDef :=
  [{ name := "id", type := "INT", type_params := [], constraints := ["PRIMARY KEY"] },
   { name := "name", type := "VARCHAR(3)", type_params := [3], constraints := [] }]

/-- The freshly created C7 scenario table. -/
def varcharT0 : Table := Database.create_table "t" varcharDefs

/-- A table `items(price FLOAT)` after inserting the integer literal 26:
the stored value is the float 26.0. -/
def itemsT : Table :=
  (Database.insert
    (Database.create_table "items"
      [{ name := "price", type := "FLOAT", type_params := [], constraints := [] }])
    [Value.int 26]).2

/-! ## Claim theorems -/

/-- C1 (the index-mirrors-rows invariant fails): after the successful
insert of Alice into the freshly created `users` table, the persisted
`id` and `email` indexes are still empty — `insert`'s final dump of its
pre-update in-memory table overwrites `_update_index`'s writes — while the
mapping the invariant demands is `{"1": [0]}`; consequently, after Bob is
inserted, the index-accelerated `select_with_where 'id=2'` finds nothing
although a full scan finds Bob (the lookup `tests/test_indexing.py`
step 4 expects to succeed). -/
theorem c1_insert_leaves_stale_index :
    (Database.insert usersT0 [Value.int 1, Value.str "Alice", Value.str "alice@test.com"]).1 =
      "Inserted into 'users'" ∧
    usersT1.data = [[Value.int 1, Value.str "Alice", Value.str "alice@test.com"]] ∧
    lookupAssoc usersT1.indexes "id" = some { data := [], column_index := 0 } ∧
    lookupAssoc usersT1.indexes "email" = some { data := [], column_index := 2 } ∧
    specIndexOfRows usersT1.data 0 = [("1", [0])] ∧
    Database.select_with_where usersT2 (some "id=2") = [] ∧
    selectWithWhereScan usersT2 "id=2" =
      [[Value.int 2, Value.str "Bob", Value.str "bob@test.com"]] :=
  ⟨rfl, rfl, rfl, rfl, rfl, rfl, rfl⟩

/-- C2 (indexed select is not equivalent to the scan): `create_index` on
`products.id` builds `{"1": [0]}`; a following insert of `[2]` appends the
row but persists the pre-insert index (and `insert` only maintains
PRIMARY KEY / UNIQUE indexes at all), so the index-accelerated select for
`id=2` returns no rows while the full scan returns the row. -/
theorem c2_indexed_select_misses_new_row :
    (Database.create_index productsT1 "id").1 = "Index created on 'products.id'" ∧
    productsT2.indexes = [("id", { data := [("1", [0])], column_index := 0 })] ∧
    productsT3.data = [[Value.int 1], [Value.int 2]] ∧
    productsT3.indexes = productsT2.indexes ∧
    Database.select_with_where productsT3 (some "id=2") = [] ∧
    selectWithWhereScan productsT3 "id=2" = [[Value.int 2]] :=
  ⟨rfl, rfl, rfl, rfl, rfl, rfl⟩

/-- C3: every `insert` call either reports the success message or returns
the stored table unchanged — all error returns (wrong column count, type
validation, constraint violation) happen before the only write — and a
wrong column count in particular always fails and leaves the table
unchanged. -/
theorem c3_insert_failure_leaves_table_unchanged :
    (∀ (f : Table) (vs : List Value),
      (Database.insert f vs).1 = "Inserted into '" ++ f.name ++ "'" ∨
      (Database.insert f vs).2 = f) ∧
    (∀ (f : Table) (vs : List Value), vs.length ≠ f.column_definitions.length →
      (Database.insert f vs).2 = f ∧
      (Database.insert f vs).1 ≠ "Inserted into '" ++ f.name ++ "'") :=
  ⟨insert_result_cases, insert_wrong_count⟩

/-- C3 witness: a one-value insert into the three-column `users` table
fails and leaves the table unchanged (via the theorem), and a duplicate
PRIMARY KEY insert returns the duplicate error with the table unchanged. -/
theorem c3_insert_failure_witness :
    (List.length [Value.int 5] ≠ usersT1.column_definitions.length ∧
      (Database.insert usersT1 [Value.int 5]).2 = usersT1) ∧
    ((Database.insert usersT1 [Value.int 1, Value.str "Carol", Value.str "c@x.com"]).1 =
      "Error: Duplicate value '1' for unique column 'id'" ∧
      (Database.insert usersT1 [Value.int 1, Value.str "Carol", Value.str "c@x.com"]).2 =
        usersT1) :=
  ⟨⟨by decide,
    (c3_insert_failure_leaves_table_unchanged.2 usersT1 [Value.int 5] (by decide)).1⟩,
   rfl, rfl⟩

/-- C4 (amended): an UPDATE call that returns an error — in particular a
constraint violation on a later matched row — leaves the persisted rows
exactly as they were: the in-memory replacements of earlier matched rows
are never saved, because the single save of the table happens only after
the whole loop succeeds.  Every call either reports `Updated n row(s)` or
leaves the stored row data unchanged. -/
theorem c4_update_error_commits_no_rows (f : Table) (u : List (String × Value))
    (w : Option String) :
    (∃ n : Nat, (Database.update f u w).1 =
      "Updated " ++ toString n ++ " row(s) in '" ++ f.name ++ "'") ∨
    (Database.update f u w).2.data = f.data :=
  update_result_cases f u w

/-- C4 counterexample: no update call both changes the persisted rows and
fails to report success — so the claimed scenario (earlier matched rows
already committed when the constraint error returns) cannot occur; at the
canonical input (`SET id=9 WHERE a=x` over `[[x,1],[x,2]]`, where the
first row is processed and the second hits the UNIQUE violation) the call
returns the duplicate error and the persisted rows are unchanged. -/
theorem c4_no_partial_commit_counterexample :
    (¬ ∃ (f : Table) (u : List (String × Value)) (w : Option String),
        (Database.update f u w).2.data ≠ f.data ∧
        ∀ n : Nat, (Database.update f u w).1 ≠
          "Updated " ++ toString n ++ " row(s) in '" ++ f.name ++ "'") ∧
    (Database.update updDemoT [("id", Value.int 9)] (some "a=x")).1 =
      "Error: Duplicate value '9' for unique column 'id'" ∧
    (Database.update updDemoT [("id", Value.int 9)] (some "a=x")).2.data = updDemoT.data ∧
    updDemoT.data = [[Value.str "x", Value.int 1], [Value.str "x", Value.int 2]] := by
  refine ⟨?_, rfl, rfl, rfl⟩
  rintro ⟨f, u, w, hd, hm⟩
  rcases update_result_cases f u w with ⟨n, h⟩ | h
  · exact hm n h
  · exact hd h

/-- C5: the typed column parser does reject `VARCHAR` without a length and
unknown types, but `_parse_create_table` then falls back to the legacy
untyped parser, which accepts the whole definition as a TEXT column name,
so the commands succeed; only malformed parenthesization is rejected. -/
theorem c5_create_table_fallback_accepts_bad_types :
    parseColumnsWithTypes "name VARCHAR" = .error "VARCHAR must specify length: VARCHAR(n)" ∧
    parseSql "CREATE TABLE t (name VARCHAR)" =
      .createTableCmd "t"
        [{ name := "name VARCHAR", type := "TEXT", type_params := [], constraints := [] }] true ∧
    parseColumnsWithTypes "id FOOBAR" =
      .error ("Unsupported data type: FOOBAR. Supported: " ++
        String.intercalate ", " validTypes) ∧
    parseSql "CREATE TABLE t2 (id FOOBAR)" =
      .createTableCmd "t2"
        [{ name := "id FOOBAR", type := "TEXT", type_params := [], constraints := [] }] true ∧
    parseSql "CREATE TABLE t3 (id INT" =
      .errorCmd ("Invalid CREATE TABLE syntax. Use: CREATE TABLE name (col1, col2, ...) " ++
        "or CREATE TABLE name (col1 TYPE, col2 TYPE, ...)") :=
  ⟨rfl, rfl, rfl, rfl, rfl⟩

/-- C6 (amended): a single-table SELECT with a nonempty fetched row set
aborts with a ColumnNotFound error when a requested column is unknown;
with an empty row set the projection is skipped and the empty list is
returned; and after a JOIN an unknown requested column is silently
dropped instead of aborting. -/
theorem c6_unknown_column_select_behavior :
    (∀ (t : Table) (cols : List String) (wc : Option String),
      selectRowsForExec t wc ≠ [] → (∃ c ∈ cols, c ∉ t.columns) →
      ∃ c, c ∈ cols ∧ c ∉ t.columns ∧
        executeSelect t (.cols cols) wc =
          .error ("Error: Column '" ++ c ++ "' not found in table '" ++ t.name ++ "'")) ∧
    executeSelect emptyT (.cols ["bogus"]) none = .ok [] ∧
    executeJoin tableA tableB (.cols ["id", "bogus"]) "a.id = b.aid" none =
      .ok [[Value.int 1]] :=
  ⟨execute_select_unknown_column, rfl, rfl⟩

/-- C6 counterexample: a post-join SELECT requesting the unknown column
`bogus` (next to `id`) does not abort — it returns a result whose rows
carry only the one resolvable column, a partial column list. -/
theorem c6_join_unknown_column_counterexample :
    "bogus" ∉ tableA.columns ∧ "bogus" ∉ tableB.columns ∧
    executeJoin tableA tableB (.cols ["bogus", "id"]) "a.id = b.aid" none =
      .ok [[Value.int 1]] :=
  ⟨by decide, by decide, rfl⟩

/-- C6 witness: requesting the unknown column `nope` from the nonempty
table `a` aborts with the ColumnNotFound error. -/
theorem c6_unknown_column_witness :
    selectRowsForExec tableA none ≠ [] ∧
    (∃ c, c ∈ ["nope"] ∧ c ∉ tableA.columns ∧
      executeSelect tableA (.cols ["nope"]) none =
        .error ("Error: Column '" ++ c ++ "' not found in table '" ++ tableA.name ++ "'")) := by
  refine ⟨by decide, ?_⟩
  exact c6_unknown_column_select_behavior.1 tableA ["nope"] none (by decide)
    ⟨"nope", by decide, by decide⟩

/-- C7: for every non-null value given to a VARCHAR(n) column whose
stringified form exceeds n characters, validation succeeds with the value
silently truncated to its first n characters. -/
theorem c7_varchar_silent_truncation (v : Value) (ty : String) (n : Nat) (rest : List Int)
    (hv : v ≠ .null)
    (h1 : strToUpper ty ≠ "INT") (h2 : strToUpper ty ≠ "INTEGER")
    (h3 : strStartsWith (strToUpper ty) "VARCHAR" = true)
    (hlen : (n : Int) < ((pyStr v).length : Int)) :
    validateValueType v ty ((n : Int) :: rest) = .ok (.str ((pyStr v).take n)) := by
  unfold validateValueType
  cases v with
  | null => exact absurd rfl hv
  | int m => simp [h1, h2, h3, pySliceTo, hlen]
  | float m e => simp [h1, h2, h3, pySliceTo, hlen]
  | str s =>
    have hlen' : n < s.length := by exact_mod_cast hlen
    simp [h1, h2, h3, pySliceTo, hlen']
    rfl
  | bool b => simp [h1, h2, h3, pySliceTo, hlen]

/-- C7 witness: the spec's scenario — `CREATE TABLE t (id INT PRIMARY KEY,
name VARCHAR(3))` then `INSERT INTO t VALUES (1,'Alice')` parses as
expected, validation truncates `Alice` to `Ali` (via the theorem), and the
insert succeeds storing `Ali`. -/
theorem c7_varchar_truncation_witness :
    validateValueType (Value.str "Alice") "VARCHAR(3)" [3] = .ok (Value.str "Ali") ∧
    parseSql "CREATE TABLE t (id INT PRIMARY KEY, name VARCHAR(3))" =
      .createTableCmd "t" varcharDefs true ∧
    parseSql "INSERT INTO t VALUES (1,'Alice')" =
      .insertCmd "t" [Value.int 1, Value.str "Alice"] ∧
    (Database.insert varcharT0 [Value.int 1, Value.str "Alice"]).1 = "Inserted into 't'" ∧
    (Database.insert varcharT0 [Value.int 1, Value.str "Alice"]).2.data =
      [[Value.int 1, Value.str "Ali"]] := by
  refine ⟨?_, rfl, rfl, rfl, rfl⟩
  exact c7_varchar_silent_truncation (Value.str "Alice") "VARCHAR(3)" 3 []
    (by decide) (by decide) (by decide) (by decide) (by decide)

/-- C8: `delete` with no predicate reports the count of rows that were
present, and the saved table has no rows and an emptied mapping in every
index, with the schema fields untouched. -/
theorem c8_delete_all_clears_rows_and_indexes (t : Table) :
    Database.delete t none =
      ("Deleted " ++ toString t.data.length ++ " row(s) from '" ++ t.name ++ "'",
        { t with data := [],
                 indexes := t.indexes.map (fun kv => (kv.1, { kv.2 with data := [] })) }) :=
  rfl

/-- C9: the non-indexed WHERE evaluation of select, update and delete all
apply the one matcher `rowMatchesVal`, which holds exactly when the
`str()` of the row's value at the predicate column equals the unquoted
predicate text — so a numeric literal matches a stored float only when
their string forms coincide. -/
theorem c9_where_match_is_string_equality :
    (∀ (i : Nat) (v : String) (r : List Value),
      rowMatchesVal i v r = true ↔ pyStr (r.getD i .null) = v) ∧
    (∀ (t : Table) (wc c v : String) (i : Nat),
      parseWhereEq wc = some (c, v) →
      findColIndex t.column_definitions c = some i →
      selectWithWhereScan t wc = t.data.filter (rowMatchesVal i v)) ∧
    (∀ (ci : List (String × Nat)) (wc c v : String) (i : Nat) (row : List Value),
      wc ≠ "" → parseWhereEq wc = some (c, v) → lookupAssoc ci c = some i →
      updateWhereTest ci (some wc) row = .ok (rowMatchesVal i v row)) ∧
    (∀ (t : Table) (wc c v : String) (i : Nat),
      parseWhereEq wc = some (c, v) →
      lookupAssoc (columnIndicesOfNames (t.column_definitions.map (fun x => x.name))) c =
        some i →
      (Database.delete t (some wc)).2.data =
        t.data.filter (fun r => !(rowMatchesVal i v r)) ∧
      (Database.delete t (some wc)).1 =
        "Deleted " ++ toString (t.data.countP (rowMatchesVal i v)) ++
          " row(s) from '" ++ t.name ++ "'") :=
  ⟨rowMatchesVal_iff, scan_where_filter, update_where_test_eq, delete_where_spec⟩

/-- C9 witness: `items(price FLOAT)` stores 26.0 for the inserted integer
26; `WHERE price=26` parses to the unquoted text `26`, whose string form
differs from `str(26.0) = "26.0"`, so the scan select (via the theorem)
returns no rows. -/
theorem c9_float_literal_witness :
    parseWhereEq "price=26" = some ("price", "26") ∧
    itemsT.data = [[Value.float 26 0]] ∧
    pyStr (Value.float 26 0) = "26.0" ∧
    selectWithWhereScan itemsT "price=26" = [] ∧
    Database.select_with_where itemsT (some "price=26") = [] := by
  refine ⟨rfl, rfl, rfl, ?_, rfl⟩
  rw [c9_where_match_is_string_equality.2.1 itemsT "price=26" "price" "26" 0 rfl rfl]
  rfl

/-- C10: a non-indexed SELECT whose WHERE predicate names a column that is
neither a column of the table nor an index returns every row of the
table, not an error and not an empty result. -/
theorem c10_unknown_where_column_returns_all_rows (t : Table) (wc c v : String)
    (hp : parseWhereEq wc = some (c, v))
    (hidx : lookupAssoc t.indexes c = none)
    (hcol : findColIndex t.column_definitions c = none) :
    Database.select_with_where t (some wc) = t.data := by
  unfold Database.select_with_where
  dsimp only
  by_cases hw : wc = ""
  · rw [if_pos hw]
  · rw [if_neg hw]
    have hu : useIndexForWhere t wc = none := by
      unfold useIndexForWhere
      rw [hp]
      dsimp only
      rw [hidx]
    rw [hu]
    unfold selectWithWhereScan
    rw [hp]
    dsimp only
    rw [hcol]

/-- C10 witness: `WHERE ghost=1` against the two-row `users` table (whose
columns are id, name, email) returns both rows. -/
theorem c10_unknown_where_column_witness :
    parseWhereEq "ghost=1" = some ("ghost", "1") ∧
    usersT2.data.length = 2 ∧
    Database.select_with_where usersT2 (some "ghost=1") = usersT2.data :=
  ⟨rfl, rfl,
    c10_unknown_where_column_returns_all_rows usersT2 "ghost=1" "ghost" "1" rfl rfl rfl⟩
